/-
Verification of the marathon-apps task exporter (src/main.py) against its
natural-language specification. The definitions below are a shallow
embedding of the Python source: Python strings become lists of characters,
the insertion-ordered `self._stats` dictionaries become association lists,
JSON stats documents become structures holding the fields the code reads,
and exceptions become `Except` (for code on the main thread) or an explicit
`raised` flag (for code running inside a worker thread, whose exceptions
Python confines to that thread).
-/
import Mathlib

/-- Python strings, modelled as lists of characters. -/
abbrev Str := List Char

/-- Python `s.split(sep)` for a one-character separator: split on every
occurrence of `sep`; the empty string yields a single empty field, and `n`
separators always yield `n + 1` fields, matching Python. -/
def pysplit (sep : Char) (s : Str) : List Str :=
  s.foldr (fun c acc =>
    if c = sep then [] :: acc
    else match acc with
      | [] => [[c]]
      | h :: t => (c :: h) :: t) [[]]

/-- Python truthiness of a string: non-empty. Used for `if appid and taskid`. -/
def truthy (s : Str) : Bool := !s.isEmpty

/-- A prometheus metric family as built by the collectors: the constructor
arguments of `CounterMetricFamily` or `GaugeMetricFamily` (main.py:62-77)
plus the list of samples appended by `add_metric`. Sample values are
modelled as rationals (Python numbers). -/
structure MetricFamily where
  name : String
  is_counter : Bool
  desc : String
  label_names : List String
  samples : List (List Str × ℚ)
deriving DecidableEq

/-- The `self._stats` dictionary of a collector (main.py:60): an
insertion-ordered map from stat id to metric family. -/
abbrev Registry := List (String × MetricFamily)

/-- Python dict assignment `d[k] = fam` on an insertion-ordered dict:
replace in place when the key is present, else append. -/
def dictAssign (d : Registry) (k : String) (fam : MetricFamily) : Registry :=
  if d.any (fun p => p.1 = k) then d.map (fun p => if p.1 = k then (k, fam) else p)
  else d ++ [(k, fam)]

/-- BaseStatsCollector.add_stat (main.py:62-63):
`self._stats[stat_id] = stat_type(stat_id, stat_desc, labels=labels)`. -/
def BaseStatsCollector.add_stat (r : Registry) (stat_id : String) (is_counter : Bool)
    (stat_desc : String) (labels : List String) : Registry :=
  dictAssign r stat_id ⟨stat_id, is_counter, stat_desc, labels, []⟩

/-- BaseStatsCollector.add_gauge (main.py:71-73). -/
def BaseStatsCollector.add_gauge (r : Registry) (gauge_id : String)
    (gauge_desc : String) (labels : List String) : Registry :=
  BaseStatsCollector.add_stat r gauge_id false gauge_desc labels

/-- BaseStatsCollector.add_counter (main.py:75-77). -/
def BaseStatsCollector.add_counter (r : Registry) (counter_id : String)
    (counter_desc : String) (labels : List String) : Registry :=
  BaseStatsCollector.add_stat r counter_id true counter_desc labels

/-- BaseStatsCollector.get_stats, also BaseStatsCollector.collect
(main.py:68-69, 83-85): `self._stats.values()`. -/
def BaseStatsCollector.get_stats (r : Registry) : List MetricFamily :=
  r.map Prod.snd

/-- BaseStatsCollector.cleanup_samples (main.py:79-81): for each family set
`stat.samples = []`, leaving the family definition itself unchanged. -/
def BaseStatsCollector.cleanup_samples (r : Registry) : Registry :=
  r.map (fun p => (p.1, { p.2 with samples := [] }))

/-- Models `self.get_stat(stat_id).add_metric(labels, value)` (main.py:65-66
plus the prometheus client `add_metric`): append one sample to the family
registered under `stat_id`. Every call site uses an id registered at
construction time, so the id is always present. -/
def BaseStatsCollector.add_metric (r : Registry) (stat_id : String)
    (labels : List Str) (value : ℚ) : Registry :=
  r.map (fun p =>
    if p.1 = stat_id then (p.1, { p.2 with samples := p.2.samples ++ [(labels, value)] })
    else p)

/-- Samples currently held by the family registered under `stat_id`
(empty when the id is not registered). Observation helper. -/
def family_samples (r : Registry) (stat_id : String) : List (List Str × ℚ) :=
  match r.find? (fun p => p.1 = stat_id) with
  | some p => p.2.samples
  | none => []

/-- Whether a family is registered under `stat_id`. Observation helper. -/
def haskey (r : Registry) (stat_id : String) : Bool :=
  (r.find? (fun p => p.1 = stat_id)).isSome

/-- Definition part of a family: everything except its samples. -/
def famDef (f : MetricFamily) : String × Bool × String × List String :=
  (f.name, f.is_counter, f.desc, f.label_names)

/-- Per-interface counters read by NetworkStatsCollector (main.py:92-101). -/
structure NetIfStats where
  rx_bytes : ℤ
  rx_errors : ℤ
  rx_packets : ℤ
  rx_dropped : ℤ
  tx_bytes : ℤ
  tx_errors : ℤ
  tx_packets : ℤ
  tx_dropped : ℤ
deriving DecidableEq

/-- The memory_stats.stats fields read by MemoryStatsCollector
(main.py:135-139). -/
structure MemInnerStats where
  cache : ℤ
  rss : ℤ
  swap : ℤ
deriving DecidableEq

/-- The memory_stats document fields read by MemoryStatsCollector
(main.py:154-163). -/
structure MemStats where
  stats : MemInnerStats
  usage : ℤ
  limit : ℤ
deriving DecidableEq

/-- The cpu_usage sub-document read by CPUStatsCollector (main.py:183-210). -/
structure CpuUsage where
  total_usage : ℤ
  usage_in_kernelmode : ℤ
  usage_in_usermode : ℤ
  percpu_usage : List ℤ
deriving DecidableEq

/-- The cpu_stats (and precpu_stats) document read by CPUStatsCollector. -/
structure CpuStats where
  cpu_usage : CpuUsage
  system_cpu_usage : ℤ
deriving DecidableEq

/-- A raw docker stats document, restricted to the fields the collectors
read. The networks dict keeps its iteration order as a list. -/
structure StatsDoc where
  networks : List (Str × NetIfStats)
  memory_stats : MemStats
  cpu_stats : CpuStats
  precpu_stats : CpuStats
deriving DecidableEq

/-- ns_to_sec (main.py:50-54): `value / 1000000000.0`. -/
def ns_to_sec (value : ℤ) : ℚ :=
  (value : ℚ) / 1000000000

/-- Outcome of a block of Python code that mutates collector state while
running inside a worker thread: the state at the point where the block
finished or raised, plus whether it raised. Python confines the exception
to the thread, so callers observe only `state`. -/
structure PyRun (σ : Type) where
  state : σ
  raised : Bool

/-- NetworkStatsCollector METRIC_NAME_TO_DOCKER_STAT (main.py:92-101),
with each docker stat field given as its accessor, in source order. -/
def NET_METRIC_NAME_TO_DOCKER_STAT : List (String × (NetIfStats → ℤ)) :=
  [("container_network_receive_bytes_total", NetIfStats.rx_bytes),
   ("container_network_receive_errors_total", NetIfStats.rx_errors),
   ("container_network_receive_packets_total", NetIfStats.rx_packets),
   ("container_network_receive_packets_dropped_total", NetIfStats.rx_dropped),
   ("container_network_transmit_bytes_total", NetIfStats.tx_bytes),
   ("container_network_transmit_errors_total", NetIfStats.tx_errors),
   ("container_network_transmit_packets_total", NetIfStats.tx_packets),
   ("container_network_transmit_packets_dropped_total", NetIfStats.tx_dropped)]

/-- NetworkStatsCollector.__init__ (main.py:103-121). -/
def NetworkStatsCollector.init : Registry :=
  let labels := ["interface", "appid", "taskid"]
  let r : Registry := []
  let r := BaseStatsCollector.add_counter r "container_network_receive_bytes_total"
    "Cumulative count of bytes received" labels
  let r := BaseStatsCollector.add_counter r "container_network_receive_errors_total"
    "Cumulative count of errors encountered while receiving" labels
  let r := BaseStatsCollector.add_counter r "container_network_receive_packets_total"
    "Cumulative count of packets received" labels
  let r := BaseStatsCollector.add_counter r "container_network_receive_packets_dropped_total"
    "Cumulative count of packets dropped while receiving" labels
  let r := BaseStatsCollector.add_counter r "container_network_transmit_bytes_total"
    "Cumulative count of bytes transmitted" labels
  let r := BaseStatsCollector.add_counter r "container_network_transmit_errors_total"
    "Cumulative count of errors encountered while transmitting" labels
  let r := BaseStatsCollector.add_counter r "container_network_transmit_packets_total"
    "Cumulative count of packets transmitted" labels
  BaseStatsCollector.add_counter r "container_network_transmit_packets_dropped_total"
    "Cumulative count of packets dropped while transmitting" labels

/-- NetworkStatsCollector.add_container (main.py:123-128): for each
interface and each mapped metric name, append one sample. Raises nothing. -/
def NetworkStatsCollector.add_container (r : Registry) (appid taskid : Str)
    (container_stats : StatsDoc) : Registry :=
  container_stats.networks.foldl (fun r net =>
    NET_METRIC_NAME_TO_DOCKER_STAT.foldl (fun r m =>
      BaseStatsCollector.add_metric r m.1 [net.1, appid, taskid] ((m.2 net.2 : ℤ) : ℚ)) r) r

/-- MemoryStatsCollector METRIC_NAME_TO_DOCKER_STAT (main.py:135-139). -/
def MEM_METRIC_NAME_TO_DOCKER_STAT : List (String × (MemInnerStats → ℤ)) :=
  [("container_memory_cache", MemInnerStats.cache),
   ("container_memory_rss", MemInnerStats.rss),
   ("container_memory_swap", MemInnerStats.swap)]

/-- MemoryStatsCollector.__init__ (main.py:141-152). -/
def MemoryStatsCollector.init : Registry :=
  let labels := ["appid", "taskid"]
  let r : Registry := []
  let r := BaseStatsCollector.add_gauge r "container_memory_cache"
    "Number of bytes of page cache memory." labels
  let r := BaseStatsCollector.add_gauge r "container_memory_rss"
    "Size of RSS in bytes." labels
  let r := BaseStatsCollector.add_gauge r "container_memory_swap"
    "Container swap usage in bytes." labels
  let r := BaseStatsCollector.add_gauge r "container_memory_usage_bytes"
    "Current memory usage in bytes." labels
  BaseStatsCollector.add_gauge r "container_memory_usage_percent"
    "Percentage of memory usage." labels

/-- MemoryStatsCollector.add_container (main.py:154-163). The percent
computation divides by `mem.limit`; a zero limit raises ZeroDivisionError
after the byte-valued samples were already appended. -/
def MemoryStatsCollector.add_container (r : Registry) (appid taskid : Str)
    (container_stats : StatsDoc) : PyRun Registry :=
  let mem := container_stats.memory_stats
  let r := MEM_METRIC_NAME_TO_DOCKER_STAT.foldl (fun r m =>
    BaseStatsCollector.add_metric r m.1 [appid, taskid] ((m.2 mem.stats : ℤ) : ℚ)) r
  let r := BaseStatsCollector.add_metric r "container_memory_usage_bytes"
    [appid, taskid] ((mem.usage : ℤ) : ℚ)
  if mem.limit = 0 then ⟨r, true⟩
  else
    let mem_percent := ((mem.usage : ℚ) / (mem.limit : ℚ)) * 100
    ⟨BaseStatsCollector.add_metric r "container_memory_usage_percent"
      [appid, taskid] mem_percent, false⟩

/-- CPUStatsCollector.__init__ (main.py:168-181). -/
def CPUStatsCollector.init : Registry :=
  let labels := ["appid", "taskid"]
  let r : Registry := []
  let r := BaseStatsCollector.add_counter r "container_cpu_system_seconds_total"
    "Cumulative system cpu time consumed in seconds." labels
  let r := BaseStatsCollector.add_counter r "container_cpu_kernel_seconds_total"
    "Cumulative kernel cpu time consumed in seconds." labels
  let r := BaseStatsCollector.add_counter r "container_cpu_user_seconds_total"
    "Cumulative user cpu time consumed in seconds." labels
  let r := BaseStatsCollector.add_counter r "container_cpu_usage_seconds_total"
    "Cumulative cpu time consumed per cpu in seconds." ("cpu" :: labels)
  BaseStatsCollector.add_gauge r "container_cpu_usage_percent"
    "Percentage of cpu time used." labels

/-- Python label formatting for one cpu index, zero-padded to width 2. -/
def format_cpu_label (cpu : ℕ) : Str :=
  "cpu".toList ++ (if cpu < 10 then ['0'] else []) ++ Nat.toDigits 10 cpu

/-- CPUStatsCollector.add_container (main.py:183-211). The percent
computation divides `cpu_delta` by `sys_delta` with no guard; when
`sys_delta` is zero Python raises ZeroDivisionError after the seconds
samples were already appended, and no percent sample is produced. -/
def CPUStatsCollector.add_container (r : Registry) (appid taskid : Str)
    (stats : StatsDoc) : PyRun Registry :=
  let cpu_stats := stats.cpu_stats
  let pre_cpu_stats := stats.precpu_stats
  let cpu_usage := cpu_stats.cpu_usage
  let r := BaseStatsCollector.add_metric r "container_cpu_system_seconds_total"
    [appid, taskid] (ns_to_sec cpu_stats.system_cpu_usage)
  let r := BaseStatsCollector.add_metric r "container_cpu_kernel_seconds_total"
    [appid, taskid] (ns_to_sec cpu_usage.usage_in_kernelmode)
  let r := BaseStatsCollector.add_metric r "container_cpu_user_seconds_total"
    [appid, taskid] (ns_to_sec cpu_usage.usage_in_usermode)
  let r := cpu_usage.percpu_usage.enum.foldl (fun r cv =>
    BaseStatsCollector.add_metric r "container_cpu_usage_seconds_total"
      [format_cpu_label cv.1, appid, taskid] (ns_to_sec cv.2)) r
  let cpu_delta := cpu_usage.total_usage - pre_cpu_stats.cpu_usage.total_usage
  let sys_delta := cpu_stats.system_cpu_usage - pre_cpu_stats.system_cpu_usage
  if sys_delta = 0 then ⟨r, true⟩
  else
    let cpu_percent := ((cpu_delta : ℚ) / (sys_delta : ℚ)) *
      (cpu_usage.percpu_usage.length : ℚ) * 100
    ⟨BaseStatsCollector.add_metric r "container_cpu_usage_percent"
      [appid, taskid] cpu_percent, false⟩

/-- The cache statistics returned by `functools.lru_cache` `cache_info()`:
hits, misses, maxsize, currsize. -/
structure CacheInfo where
  hits : ℕ
  misses : ℕ
  maxsize : ℕ
  currsize : ℕ
deriving DecidableEq

/-- LRUCacheStatsCollector.__init__ (main.py:216-223). The four families
are registered with no labels. -/
def LRUCacheStatsCollector.init : Registry :=
  let r : Registry := []
  let r := BaseStatsCollector.add_counter r "exporter_details_cache_hits_total"
    "Cumulative cache hits." []
  let r := BaseStatsCollector.add_counter r "exporter_details_cache_misses_total"
    "Cumulative cache misses." []
  let r := BaseStatsCollector.add_gauge r "exporter_details_cache_max_size"
    "Maximum size of the cache." []
  BaseStatsCollector.add_gauge r "exporter_details_cache_current_size"
    "Current cache utilization." []

/-- LRUCacheStatsCollector.collect (main.py:225-234): read the cache
counters, append one sample to each of the four families, and return
`self._stats.values()`. Note that nothing clears previous samples: the
families are the same objects across calls. -/
def LRUCacheStatsCollector.collect (r : Registry) (cache_info : CacheInfo) :
    Registry × List MetricFamily :=
  let r := BaseStatsCollector.add_metric r "exporter_details_cache_hits_total"
    [] (cache_info.hits : ℚ)
  let r := BaseStatsCollector.add_metric r "exporter_details_cache_misses_total"
    [] (cache_info.misses : ℚ)
  let r := BaseStatsCollector.add_metric r "exporter_details_cache_max_size"
    [] (cache_info.maxsize : ℚ)
  let r := BaseStatsCollector.add_metric r "exporter_details_cache_current_size"
    [] (cache_info.currsize : ℚ)
  (r, BaseStatsCollector.get_stats r)

/-- Modelled from the spec: the DetailsCache put on
`DockerStatsCollector._details` by `functools.lru_cache(maxsize=32)`
(main.py:283-288) is Python standard library code, not part of src/. Per
the spec it is a least-recently-used map from container id to the inspect
result, with hit and miss counters: a hit returns the cached value,
refreshes its recency and increments hits without calling the wrapped
inspect operation; a miss calls the wrapped operation, increments misses,
inserts the result and, when the cache is at capacity, evicts the
least-recently-used entry. Entries are kept most-recently-used first. -/
structure DetailsCache (β : Type) where
  maxsize : ℕ
  entries : List (Str × β)
  hits : ℕ
  misses : ℕ

/-- Modelled from the spec: a fresh cache of the given capacity. -/
def DetailsCache.init (β : Type) (maxsize : ℕ) : DetailsCache β :=
  ⟨maxsize, [], 0, 0⟩

/-- Modelled from the spec: one cached lookup. Returns the value, the new
cache state, and whether the wrapped inspect operation was called. -/
def DetailsCache.get (c : DetailsCache β) (inspect : Str → β) (k : Str) :
    β × DetailsCache β × Bool :=
  match c.entries.find? (fun p => p.1 = k) with
  | some p =>
      let es := (k, p.2) :: c.entries.filter (fun q => decide (q.1 ≠ k))
      (p.2, { c with entries := es, hits := c.hits + 1 }, false)
  | none =>
      let v := inspect k
      let es := ((k, v) :: c.entries).take c.maxsize
      (v, { c with entries := es, misses := c.misses + 1 }, true)

/-- Modelled from the spec: a sequence of cached lookups. -/
def DetailsCache.run (c : DetailsCache β) (inspect : Str → β) (ks : List Str) :
    DetailsCache β :=
  ks.foldl (fun c k => (c.get inspect k).2.1) c

/-- Modelled from the spec: `cache_info()` on the details cache
(main.py:290-294). -/
def DetailsCache.cache_info (c : DetailsCache β) : CacheInfo :=
  ⟨c.hits, c.misses, c.maxsize, c.entries.length⟩

/-- The fixed sentinel key looked for in the environment (main.py:325). -/
def MESOS_TASK_ID : Str := "MESOS_TASK_ID".toList

/-- One iteration of the environment loop in DockerStatsCollector.collect
(main.py:323-328): `key, value = env_var.split("=")` raises ValueError
unless the split has exactly two fields; when the key is the sentinel,
`appid, taskid = value.split(".")` likewise requires exactly two fields,
and taskid is truncated to its first 8 characters. A later matching entry
overwrites an earlier one; a non-matching entry leaves the accumulator. -/
def parse_env_step (acc : Option (Str × Str)) (env_var : Str) :
    Except Unit (Option (Str × Str)) :=
  match pysplit '=' env_var with
  | [key, value] =>
      if key = MESOS_TASK_ID then
        match pysplit '.' value with
        | [appid, taskid] => .ok (some (appid, taskid.take 8))
        | _ => .error ()
      else .ok acc
  | _ => .error ()

/-- The whole environment loop of DockerStatsCollector.collect
(main.py:322-328), starting from `appid = taskid = None`. -/
def resolve_identity (env : List Str) : Except Unit (Option (Str × Str)) :=
  env.foldlM parse_env_step none

/-- A running container as seen by collect: its id and the environment
list from the (cached) inspect document `details.Config.Env`. -/
structure ContainerInfo where
  cid : Str
  env : List Str
deriving DecidableEq

/-- The mutable state of DockerStatsCollector: the three subcollectors
(main.py:241-245), in registration order. -/
structure DockerState where
  net : Registry
  mem : Registry
  cpu : Registry
deriving DecidableEq

/-- DockerStatsCollector initial state. -/
def DockerStatsCollector.init : DockerState :=
  ⟨NetworkStatsCollector.init, MemoryStatsCollector.init, CPUStatsCollector.init⟩

/-- DockerStatsCollector.add_container (main.py:296-299): run the three
subcollectors in order under the lock; an exception from one stops the
later ones but the samples already appended stay. -/
def DockerStatsCollector.add_container (st : DockerState) (appid taskid : Str)
    (stats : StatsDoc) : PyRun DockerState :=
  let net := NetworkStatsCollector.add_container st.net appid taskid stats
  let memr := MemoryStatsCollector.add_container st.mem appid taskid stats
  if memr.raised then ⟨⟨net, memr.state, st.cpu⟩, true⟩
  else
    let cpur := CPUStatsCollector.add_container st.cpu appid taskid stats
    ⟨⟨net, memr.state, cpur.state⟩, cpur.raised⟩

/-- DockerStatsCollector.cleanup_samples (main.py:301-304). -/
def DockerStatsCollector.cleanup_samples (st : DockerState) : DockerState :=
  ⟨BaseStatsCollector.cleanup_samples st.net,
   BaseStatsCollector.cleanup_samples st.mem,
   BaseStatsCollector.cleanup_samples st.cpu⟩

/-- The final double loop of DockerStatsCollector.collect (main.py:341-343):
yield every family of every subcollector, in order. -/
def DockerStatsCollector.collected_metrics (st : DockerState) : List MetricFamily :=
  BaseStatsCollector.get_stats st.net ++ BaseStatsCollector.get_stats st.mem ++
    BaseStatsCollector.get_stats st.cpu

/-- One iteration of the container loop of DockerStatsCollector.collect
(main.py:316-334): resolve the identity from the environment (errors
propagate, this loop runs on the main thread) and, when both appid and
taskid are truthy, schedule a fetch for the container; otherwise the
container is only logged and skipped. -/
def schedule_step (acc : List (Str × Str × Str)) (c : ContainerInfo) :
    Except Unit (List (Str × Str × Str)) := do
  let ident ← resolve_identity c.env
  match ident with
  | some (appid, taskid) =>
      if truthy appid && truthy taskid then pure (acc ++ [(appid, taskid, c.cid)])
      else pure acc
  | none => pure acc

/-- One scheduled fetch thread, _fetch_stats (main.py:274-281): `fetch`
gives the raw stats document the docker api returned for the container, or
none when the fetch failed or exceeded the timeout. Per the spec, a
container-level failure stays in its worker thread and never escalates, so
the shared state is simply left as the thread left it. -/
def run_thread (fetch : Str → Option StatsDoc) (st : DockerState)
    (thread : Str × Str × Str) : DockerState :=
  match fetch thread.2.2 with
  | none => st
  | some stats => (DockerStatsCollector.add_container st thread.1 thread.2.1 stats).state

/-- DockerStatsCollector.collect (main.py:306-343): erase previous samples,
walk the running containers resolving identities and scheduling fetches,
wait for the fetch threads, and yield every family. The interleaving of
the worker threads is modelled as running them in scheduling order after
the container loop finishes, which the join loop makes observationally
equivalent for the returned metrics. -/
def DockerStatsCollector.collect (st : DockerState)
    (containers : List ContainerInfo) (fetch : Str → Option StatsDoc) :
    Except Unit (DockerState × List MetricFamily) := do
  let st1 := DockerStatsCollector.cleanup_samples st
  let threads ← containers.foldlM schedule_step []
  let st2 := threads.foldl (run_thread fetch) st1
  pure (st2, DockerStatsCollector.collected_metrics st2)

/-- Defined from the words of claim C1, for comparison with
`resolve_identity` (which is defined from the code): split a string on the
FIRST occurrence of the separator only. -/
def split_first (sep : Char) (s : Str) : Option (Str × Str) :=
  match pysplit sep s with
  | a :: b :: rest => some (a, List.intercalate [sep] (b :: rest))
  | _ => none

/-- Defined from the words of claim C1, for comparison with
`resolve_identity`: take the FIRST environment entry whose key is the
sentinel and split its value on the FIRST dot, truncating taskid to 8
characters. -/
def resolve_identity_claim (env : List Str) : Option (Str × Str) :=
  match env.findSome? (fun e =>
    match split_first '=' e with
    | some kv => if kv.1 = MESOS_TASK_ID then some kv.2 else none
    | none => none) with
  | some value => (split_first '.' value).map (fun p => (p.1, p.2.take 8))
  | none => none

/-- The stats document of the worked example of claim C3: current total
usage 2000, previous total usage 1000, current system usage 500000,
previous system usage 490000, and four per-core entries. -/
def exampleCpuStats : StatsDoc :=
  ⟨[], ⟨⟨0, 0, 0⟩, 0, 1⟩, ⟨⟨2000, 0, 0, [0, 0, 0, 0]⟩, 500000⟩, ⟨⟨1000, 0, 0, []⟩, 490000⟩⟩

lemma add_metric_find? (r : Registry) (id2 : String) (ls : List Str) (v : ℚ)
    (stat_id : String) :
    (BaseStatsCollector.add_metric r id2 ls v).find? (fun p => p.1 = stat_id)
      = (r.find? (fun p => p.1 = stat_id)).map (fun p =>
          if p.1 = id2 then (p.1, { p.2 with samples := p.2.samples ++ [(ls, v)] }) else p) := by
  unfold BaseStatsCollector.add_metric
  rw [List.find?_map]
  have hfg : ((fun p => decide (p.1 = stat_id)) ∘ (fun (p : String × MetricFamily) =>
      if p.1 = id2 then (p.1, { p.2 with samples := p.2.samples ++ [(ls, v)] }) else p))
      = fun p => decide (p.1 = stat_id) := by
    funext p
    by_cases h : p.1 = id2 <;> simp [h, Function.comp]
  rw [hfg]

lemma haskey_add_metric (r : Registry) (id2 : String) (ls : List Str) (v : ℚ)
    (stat_id : String) :
    haskey (BaseStatsCollector.add_metric r id2 ls v) stat_id = haskey r stat_id := by
  unfold haskey
  rw [add_metric_find?]
  cases r.find? (fun p => p.1 = stat_id) <;> simp

lemma family_samples_add_metric (r : Registry) (id2 : String) (ls : List Str) (v : ℚ)
    (stat_id : String) :
    family_samples (BaseStatsCollector.add_metric r id2 ls v) stat_id =
      if id2 = stat_id then
        (if haskey r stat_id then family_samples r stat_id ++ [(ls, v)] else [])
      else family_samples r stat_id := by
  unfold family_samples haskey
  rw [add_metric_find?]
  cases hf : r.find? (fun p => p.1 = stat_id) with
  | none => by_cases h : id2 = stat_id <;> simp [h]
  | some p =>
      have hp : p.1 = stat_id := by
        have := List.find?_some hf
        simpa using this
      by_cases h : id2 = stat_id
      · subst h
        simp [hp]
      · have hne : p.1 ≠ id2 := by rw [hp]; exact fun hc => h hc.symm
        simp [hne, h]

lemma family_samples_percpu_foldl (l : List (ℕ × ℤ)) (r : Registry)
    (appid taskid : Str) (stat_id : String)
    (h : stat_id ≠ "container_cpu_usage_seconds_total") :
    family_samples (l.foldl (fun r cv =>
        BaseStatsCollector.add_metric r "container_cpu_usage_seconds_total"
          [format_cpu_label cv.1, appid, taskid] (ns_to_sec cv.2)) r) stat_id
      = family_samples r stat_id := by
  induction l generalizing r with
  | nil => rfl
  | cons a l ih =>
      rw [List.foldl_cons, ih, family_samples_add_metric, if_neg (Ne.symm h)]

lemma haskey_percpu_foldl (l : List (ℕ × ℤ)) (r : Registry)
    (appid taskid : Str) (stat_id : String) :
    haskey (l.foldl (fun r cv =>
        BaseStatsCollector.add_metric r "container_cpu_usage_seconds_total"
          [format_cpu_label cv.1, appid, taskid] (ns_to_sec cv.2)) r) stat_id
      = haskey r stat_id := by
  induction l generalizing r with
  | nil => rfl
  | cons a l ih => rw [List.foldl_cons, ih, haskey_add_metric]

lemma parse_env_step_matching (acc : Option (Str × Str)) (e value appid taskid : Str)
    (h1 : pysplit '=' e = [MESOS_TASK_ID, value])
    (h2 : pysplit '.' value = [appid, taskid]) :
    parse_env_step acc e = .ok (some (appid, taskid.take 8)) := by
  unfold parse_env_step
  rw [h1]
  simp [h2]

lemma except_ok_bind {e a b : Type} (x : a) (f : a → Except e b) :
    (Except.ok x >>= f) = f x := rfl

lemma schedule_step_ok (c : ContainerInfo) (acc : List (Str × Str × Str))
    (h : ∃ i, resolve_identity c.env = .ok i) :
    ∃ acc', schedule_step acc c = .ok acc' := by
  obtain ⟨i, hi⟩ := h
  unfold schedule_step
  rw [hi, except_ok_bind]
  match i with
  | none => exact ⟨acc, rfl⟩
  | some (a, t) =>
      dsimp only
      cases hb : truthy a && truthy t
      · exact ⟨acc, rfl⟩
      · exact ⟨acc ++ [(a, t, c.cid)], rfl⟩

lemma foldlM_schedule_ok (cs : List ContainerInfo) :
    ∀ acc, (∀ c ∈ cs, ∃ i, resolve_identity c.env = .ok i) →
    ∃ ths, cs.foldlM schedule_step acc = .ok ths := by
  induction cs with
  | nil => exact fun acc _ => ⟨acc, rfl⟩
  | cons c cs ih =>
      intro acc h
      obtain ⟨acc', hacc⟩ := schedule_step_ok c acc (h c (by simp))
      obtain ⟨ths, hths⟩ := ih acc' (fun x hx => h x (by simp [hx]))
      exact ⟨ths, by rw [List.foldlM_cons, hacc, except_ok_bind]; exact hths⟩

lemma foldlM_schedule_none (cs : List ContainerInfo) :
    ∀ acc, (∀ c ∈ cs, resolve_identity c.env = .ok none) →
    cs.foldlM schedule_step acc = .ok acc := by
  induction cs with
  | nil => exact fun acc _ => rfl
  | cons c cs ih =>
      intro acc h
      have hstep : schedule_step acc c = .ok acc := by
        unfold schedule_step
        rw [h c (by simp), except_ok_bind]
        rfl
      rw [List.foldlM_cons, hstep, except_ok_bind]
      exact ih acc (fun x hx => h x (by simp [hx]))

lemma schedule_step_skip (c : ContainerInfo) (appid taskid : Str)
    (h : resolve_identity c.env = .ok (some (appid, taskid)))
    (hempty : appid = [] ∨ taskid = []) :
    ∀ acc, schedule_step acc c = .ok acc := by
  intro acc
  unfold schedule_step
  rw [h, except_ok_bind]
  rcases hempty with he | he
  · subst he
    rfl
  · subst he
    dsimp only
    cases hb : truthy appid <;> rfl

lemma foldlM_schedule_middle (l1 l2 : List ContainerInfo) (c : ContainerInfo)
    (hskip : ∀ acc, schedule_step acc c = .ok acc) :
    ∀ acc, (l1 ++ c :: l2).foldlM schedule_step acc =
      (l1 ++ l2).foldlM schedule_step acc := by
  intro acc
  rw [List.foldlM_append, List.foldlM_append]
  congr 1
  funext acc'
  rw [List.foldlM_cons, hskip acc']
  rfl

lemma cleanup_samples_famDef (r : Registry) :
    (BaseStatsCollector.cleanup_samples r).map (fun p => (p.1, famDef p.2))
      = r.map (fun p => (p.1, famDef p.2)) := by
  unfold BaseStatsCollector.cleanup_samples
  rw [List.map_map]
  rfl

lemma cleanup_samples_empty (r : Registry) :
    ∀ p ∈ BaseStatsCollector.cleanup_samples r, p.2.samples = [] := by
  intro p hp
  unfold BaseStatsCollector.cleanup_samples at hp
  obtain ⟨q, hq, rfl⟩ := List.mem_map.mp hp
  rfl

lemma cleanup_samples_idem (r : Registry) :
    BaseStatsCollector.cleanup_samples (BaseStatsCollector.cleanup_samples r)
      = BaseStatsCollector.cleanup_samples r := by
  unfold BaseStatsCollector.cleanup_samples
  rw [List.map_map]
  rfl

lemma docker_cleanup_idem (st : DockerState) :
    DockerStatsCollector.cleanup_samples (DockerStatsCollector.cleanup_samples st)
      = DockerStatsCollector.cleanup_samples st := by
  unfold DockerStatsCollector.cleanup_samples
  simp [cleanup_samples_idem]

lemma cpu_add_container_percent (r : Registry) (appid taskid : Str) (stats : StatsDoc)
    (hk : haskey r "container_cpu_usage_percent" = true)
    (h : stats.cpu_stats.system_cpu_usage - stats.precpu_stats.system_cpu_usage ≠ 0) :
    (CPUStatsCollector.add_container r appid taskid stats).raised = false
    ∧ family_samples (CPUStatsCollector.add_container r appid taskid stats).state
        "container_cpu_usage_percent"
      = family_samples r "container_cpu_usage_percent"
        ++ [([appid, taskid],
             ((stats.cpu_stats.cpu_usage.total_usage
                 - stats.precpu_stats.cpu_usage.total_usage : ℤ) : ℚ)
               / ((stats.cpu_stats.system_cpu_usage
                 - stats.precpu_stats.system_cpu_usage : ℤ) : ℚ)
               * (stats.cpu_stats.cpu_usage.percpu_usage.length : ℚ) * 100)] := by
  unfold CPUStatsCollector.add_container
  dsimp only
  rw [if_neg h]
  refine ⟨rfl, ?_⟩
  dsimp only
  rw [family_samples_add_metric]
  rw [haskey_percpu_foldl, haskey_add_metric, haskey_add_metric, haskey_add_metric, hk]
  rw [family_samples_percpu_foldl _ _ _ _ _ (by decide)]
  rw [family_samples_add_metric, family_samples_add_metric, family_samples_add_metric]
  simp

lemma cpu_add_container_zero_div (r : Registry) (appid taskid : Str) (stats : StatsDoc)
    (h : stats.cpu_stats.system_cpu_usage - stats.precpu_stats.system_cpu_usage = 0) :
    (CPUStatsCollector.add_container r appid taskid stats).raised = true
    ∧ family_samples (CPUStatsCollector.add_container r appid taskid stats).state
        "container_cpu_usage_percent"
      = family_samples r "container_cpu_usage_percent" := by
  unfold CPUStatsCollector.add_container
  dsimp only
  rw [if_pos h]
  refine ⟨rfl, ?_⟩
  dsimp only
  rw [family_samples_percpu_foldl _ _ _ _ _ (by decide)]
  rw [family_samples_add_metric, family_samples_add_metric, family_samples_add_metric]
  simp

lemma take_append_take {α : Type} (A B : List α) (m : ℕ) :
    (A ++ B.take m).take m = (A ++ B).take m := by
  rw [List.take_append_eq_append_take, List.take_append_eq_append_take, List.take_take,
      Nat.min_eq_left (Nat.sub_le m A.length)]

lemma details_cache_run_fresh {β : Type} (inspect : Str → β) :
    ∀ (ks : List Str) (c : DetailsCache β),
      ks.Nodup →
      (∀ x ∈ ks, ∀ p ∈ c.entries, p.1 ≠ x) →
      c.entries.length ≤ c.maxsize →
      (DetailsCache.run c inspect ks).maxsize = c.maxsize
      ∧ (DetailsCache.run c inspect ks).hits = c.hits
      ∧ (DetailsCache.run c inspect ks).misses = c.misses + ks.length
      ∧ (DetailsCache.run c inspect ks).entries =
          ((ks.reverse.map (fun x => (x, inspect x))) ++ c.entries).take c.maxsize := by
  intro ks
  induction ks with
  | nil =>
      intro c _ _ hlen
      refine ⟨rfl, rfl, by simp [DetailsCache.run], ?_⟩
      simp [DetailsCache.run]
      exact hlen
  | cons k ks ih =>
      intro c hnd hfresh hlen
      have hfind : c.entries.find? (fun p => p.1 = k) = none := by
        rw [List.find?_eq_none]
        intro p hp
        simpa using hfresh k (by simp) p hp
      have hrun : DetailsCache.run c inspect (k :: ks) = DetailsCache.run
          ⟨c.maxsize, ((k, inspect k) :: c.entries).take c.maxsize, c.hits, c.misses + 1⟩
          inspect ks := by
        unfold DetailsCache.run
        rw [List.foldl_cons]
        congr 1
        unfold DetailsCache.get
        rw [hfind]
      have hnd' := (List.nodup_cons.mp hnd).2
      have hkmem := (List.nodup_cons.mp hnd).1
      have hfresh' : ∀ x ∈ ks, ∀ p ∈
          (((k, inspect k) :: c.entries).take c.maxsize : List (Str × β)), p.1 ≠ x := by
        intro x hx p hp
        have hp' := List.take_subset _ _ hp
        rcases List.mem_cons.mp hp' with hpk | hpc
        · subst hpk
          intro hc
          have hkx : k = x := hc
          exact hkmem (by rw [hkx]; exact hx)
        · exact hfresh x (by simp [hx]) p hpc
      have hlen' : (((k, inspect k) :: c.entries).take c.maxsize).length ≤ c.maxsize :=
        List.length_take_le _ _
      obtain ⟨hmax, hhits, hmiss, hent⟩ := ih
        ⟨c.maxsize, ((k, inspect k) :: c.entries).take c.maxsize, c.hits, c.misses + 1⟩
        hnd' hfresh' hlen'
      rw [hrun]
      refine ⟨hmax, hhits, ?_, ?_⟩
      · rw [hmiss]
        simp
        omega
      · rw [hent]
        have hre : (k :: ks).reverse.map (fun x => (x, inspect x)) ++ c.entries
            = ks.reverse.map (fun x => (x, inspect x)) ++ ((k, inspect k) :: c.entries) := by
          simp [List.reverse_cons]
        rw [hre]
        exact take_append_take _ _ _

/-- Claim C1, corrected. The code resolves the identity from the LAST
environment entry whose key is MESOS_TASK_ID, not the first: each matching
entry overwrites appid and taskid, and a later matching entry replaces the
value of an earlier one whenever the earlier entries themselves did not
raise. The value is split on EVERY dot and must yield exactly two fields
(anything else raises ValueError); appid is the field before the dot and
taskid the first 8 characters of the field after it. The worked example
MESOS_TASK_ID=myapp.abcdefgh1234 resolves to appid myapp, taskid abcdefgh. -/

theorem C1_identity_from_last_entry :
    (∀ (env : List Str) (e value appid taskid : Str),
      pysplit '=' e = [MESOS_TASK_ID, value] →
      pysplit '.' value = [appid, taskid] →
      resolve_identity (env ++ [e]) =
        (resolve_identity env).map (fun _ => some (appid, taskid.take 8)))
    ∧ resolve_identity ["MESOS_TASK_ID=myapp.abcdefgh1234".toList] =
        .ok (some ("myapp".toList, "abcdefgh".toList)) := by
  constructor
  · intro env e value appid taskid h1 h2
    unfold resolve_identity
    rw [List.foldlM_append]
    cases hres : List.foldlM parse_env_step none env with
    | error u =>
        simp [hres, Except.map]
        rfl
    | ok acc =>
        simp [hres, Except.map]
        exact parse_env_step_matching acc e value appid taskid h1 h2
  · rfl

/-- Witness for C1: the general statement applied to a concrete
environment with one unrelated entry followed by one matching entry. -/

theorem C1_identity_from_last_entry_witness :
    pysplit '=' "MESOS_TASK_ID=foo.barbarbarbar".toList =
        [MESOS_TASK_ID, "foo.barbarbarbar".toList]
    ∧ pysplit '.' "foo.barbarbarbar".toList = ["foo".toList, "barbarbarbar".toList]
    ∧ resolve_identity (["HOME=root".toList] ++ ["MESOS_TASK_ID=foo.barbarbarbar".toList]) =
        (resolve_identity ["HOME=root".toList]).map
          (fun _ => some ("foo".toList, ("barbarbarbar".toList).take 8)) :=
  ⟨by decide, by decide,
   C1_identity_from_last_entry.1 ["HOME=root".toList] "MESOS_TASK_ID=foo.barbarbarbar".toList
     "foo.barbarbarbar".toList "foo".toList "barbarbarbar".toList (by decide) (by decide)⟩

/-- Counterexample for C1 as frozen: with two MESOS_TASK_ID entries the
code takes the second entry while the claim takes the first, and on a value
with two dots the code raises ValueError while the claim resolves the split
at the first dot. -/

theorem C1_identity_counterexample :
    resolve_identity ["MESOS_TASK_ID=app1.taskaaaa1111".toList,
        "MESOS_TASK_ID=app2.taskbbbb2222".toList]
      = .ok (some ("app2".toList, "taskbbbb".toList))
    ∧ resolve_identity_claim ["MESOS_TASK_ID=app1.taskaaaa1111".toList,
        "MESOS_TASK_ID=app2.taskbbbb2222".toList]
      = some ("app1".toList, "taskaaaa".toList)
    ∧ ("app1".toList, "taskaaaa".toList) ≠ ("app2".toList, "taskbbbb".toList)
    ∧ resolve_identity ["MESOS_TASK_ID=a.b.c".toList] = .error ()
    ∧ resolve_identity_claim ["MESOS_TASK_ID=a.b.c".toList] = some ("a".toList, "b.c".toList) :=
  ⟨rfl, rfl, by decide, rfl, rfl⟩

/-- Claim C2, corrected. Containers whose environment loop completes
without raising never fail the cycle: when every entry splits cleanly, a
missing identity only excludes the container and collect returns the
cleaned families. But an identity that cannot be parsed does NOT always
leave the cycle intact: a MESOS_TASK_ID value that does not split into
exactly two fields on the dot (or an entry without exactly one equals sign)
raises ValueError out of collect itself, because the environment loop runs
on the main thread with no handler. -/

theorem C2_collect_error_propagation :
    (∀ (st : DockerState) (containers : List ContainerInfo)
        (fetch : Str → Option StatsDoc),
      (∀ c ∈ containers, ∃ i, resolve_identity c.env = .ok i) →
      ∃ res, DockerStatsCollector.collect st containers fetch = .ok res)
    ∧ (∀ (st : DockerState) (containers : List ContainerInfo)
        (fetch : Str → Option StatsDoc),
      (∀ c ∈ containers, resolve_identity c.env = .ok none) →
      DockerStatsCollector.collect st containers fetch =
        .ok (DockerStatsCollector.cleanup_samples st,
             DockerStatsCollector.collected_metrics
               (DockerStatsCollector.cleanup_samples st))) := by
  constructor
  · intro st containers fetch h
    obtain ⟨ths, hths⟩ := foldlM_schedule_ok containers [] h
    unfold DockerStatsCollector.collect
    rw [hths]
    exact ⟨_, rfl⟩
  · intro st containers fetch h
    unfold DockerStatsCollector.collect
    rw [foldlM_schedule_none containers [] h]
    rfl

/-- Witness for C2: a single container with only an unrelated environment
entry leaves collect succeeding. -/
theorem C2_collect_error_propagation_witness :
    ∃ res, DockerStatsCollector.collect DockerStatsCollector.init
      [⟨"c1".toList, ["HOME=root".toList]⟩] (fun _ => none) = .ok res :=
  C2_collect_error_propagation.1 DockerStatsCollector.init
    [⟨"c1".toList, ["HOME=root".toList]⟩] (fun _ => none)
    (by
      intro c hc
      rw [List.mem_singleton] at hc
      subst hc
      exact ⟨none, rfl⟩)

/-- Counterexample for C2 as frozen: a container whose MESOS_TASK_ID value
has no dot makes collect itself raise, contradicting the claim that an
unparseable identity never raises an error out of collect. -/

theorem C2_collect_counterexample :
    DockerStatsCollector.collect DockerStatsCollector.init
      [⟨"c1".toList, ["MESOS_TASK_ID=nodotvalue".toList]⟩] (fun _ => none) = .error () := rfl

/-- Claim C3, confirmed. Whenever the system usage delta is nonzero,
CPUStatsCollector.add_container finishes without raising and appends to the
container_cpu_usage_percent family exactly one sample labelled with appid
and taskid whose value is (cpuDelta / sysDelta) times the number of
per-core entries times 100; on the worked example (curTotal 2000, prevTotal
1000, curSystem 500000, prevSystem 490000, four cores) the value is 40. -/

theorem C3_cpu_percent_formula :
    (∀ (r : Registry) (appid taskid : Str) (stats : StatsDoc),
      haskey r "container_cpu_usage_percent" = true →
      stats.cpu_stats.system_cpu_usage - stats.precpu_stats.system_cpu_usage ≠ 0 →
      (CPUStatsCollector.add_container r appid taskid stats).raised = false
      ∧ family_samples (CPUStatsCollector.add_container r appid taskid stats).state
          "container_cpu_usage_percent"
        = family_samples r "container_cpu_usage_percent"
          ++ [([appid, taskid],
               ((stats.cpu_stats.cpu_usage.total_usage
                   - stats.precpu_stats.cpu_usage.total_usage : ℤ) : ℚ)
                 / ((stats.cpu_stats.system_cpu_usage
                   - stats.precpu_stats.system_cpu_usage : ℤ) : ℚ)
                 * (stats.cpu_stats.cpu_usage.percpu_usage.length : ℚ) * 100)])
    ∧ family_samples (CPUStatsCollector.add_container CPUStatsCollector.init
          "myapp".toList "abcdefgh".toList exampleCpuStats).state
        "container_cpu_usage_percent"
      = [(["myapp".toList, "abcdefgh".toList], 40)] := by
  refine ⟨fun r appid taskid stats hk h => cpu_add_container_percent r appid taskid stats hk h, ?_⟩
  have h := cpu_add_container_percent CPUStatsCollector.init
    "myapp".toList "abcdefgh".toList exampleCpuStats (by decide) (by decide)
  rw [h.2]
  have hinit : family_samples CPUStatsCollector.init "container_cpu_usage_percent" = [] := rfl
  rw [hinit]
  norm_num [exampleCpuStats]

/-- Witness for C3: the general statement applied to the initial CPU
registry and the worked-example stats document. -/
theorem C3_cpu_percent_formula_witness :
    (CPUStatsCollector.add_container CPUStatsCollector.init
      "myapp".toList "abcdefgh".toList exampleCpuStats).raised = false :=
  (C3_cpu_percent_formula.1 CPUStatsCollector.init "myapp".toList "abcdefgh".toList
    exampleCpuStats (by decide) (by decide)).1

/-- Claim C4, confirmed. When the system usage delta is zero the percent
computation divides by zero with no guard: add_container raises
(ZeroDivisionError, modelled by the raised flag) and the
container_cpu_usage_percent family receives no sample. -/

theorem C4_cpu_percent_division_by_zero :
    ∀ (r : Registry) (appid taskid : Str) (stats : StatsDoc),
      stats.cpu_stats.system_cpu_usage - stats.precpu_stats.system_cpu_usage = 0 →
      (CPUStatsCollector.add_container r appid taskid stats).raised = true
      ∧ family_samples (CPUStatsCollector.add_container r appid taskid stats).state
          "container_cpu_usage_percent"
        = family_samples r "container_cpu_usage_percent" :=
  cpu_add_container_zero_div

/-- Witness for C4: a stats document whose current and previous system
usages are both 500000. -/
theorem C4_cpu_percent_division_by_zero_witness :
    (CPUStatsCollector.add_container CPUStatsCollector.init "app".toList "task".toList
      ⟨[], ⟨⟨0, 0, 0⟩, 0, 1⟩, ⟨⟨2000, 0, 0, [0]⟩, 500000⟩, ⟨⟨1000, 0, 0, []⟩, 500000⟩⟩).raised
      = true :=
  (C4_cpu_percent_division_by_zero CPUStatsCollector.init "app".toList "task".toList
    ⟨[], ⟨⟨0, 0, 0⟩, 0, 1⟩, ⟨⟨2000, 0, 0, [0]⟩, 500000⟩, ⟨⟨1000, 0, 0, []⟩, 500000⟩⟩
    (by decide)).1

/-- Claim C5, confirmed against the spec-modelled DetailsCache. After 33
lookups with pairwise distinct container ids on a capacity-32 cache, the
first id looked up (never re-accessed) is no longer cached; looking it up
again calls the wrapped inspect operation and increments the miss counter
(which stands at 33 after the run); and a lookup for a cached id returns
the cached metadata without calling inspect, incrementing the hit
counter. -/

theorem C5_details_cache_lru_eviction :
    (∀ (β : Type) (inspect : Str → β) (k : Str) (ks : List Str),
      (k :: ks).length = 33 → (k :: ks).Nodup →
      (∀ p ∈ (DetailsCache.run (DetailsCache.init β 32) inspect (k :: ks)).entries, p.1 ≠ k)
      ∧ ((DetailsCache.run (DetailsCache.init β 32) inspect (k :: ks)).get inspect k).2.2 = true
      ∧ ((DetailsCache.run (DetailsCache.init β 32) inspect (k :: ks)).get inspect k).2.1.misses
          = (DetailsCache.run (DetailsCache.init β 32) inspect (k :: ks)).misses + 1
      ∧ (DetailsCache.run (DetailsCache.init β 32) inspect (k :: ks)).misses = 33)
    ∧ (∀ (β : Type) (inspect : Str → β) (c : DetailsCache β) (k : Str) (v : β),
      c.entries.find? (fun p => p.1 = k) = some (k, v) →
      (c.get inspect k).1 = v
      ∧ (c.get inspect k).2.2 = false
      ∧ (c.get inspect k).2.1.hits = c.hits + 1) := by
  constructor
  · intro β inspect k ks hlen hnd
    obtain ⟨hmax, hhits, hmiss, hent⟩ := details_cache_run_fresh inspect (k :: ks)
      (DetailsCache.init β 32) hnd (by simp [DetailsCache.init]) (by simp [DetailsCache.init])
    have hks : ks.length = 32 := by simpa using hlen
    have hlen32 : (ks.reverse.map (fun x => (x, inspect x))).length = 32 := by simp [hks]
    have hent' : (DetailsCache.run (DetailsCache.init β 32) inspect (k :: ks)).entries
        = ks.reverse.map (fun x => (x, inspect x)) := by
      rw [hent]
      show (((k :: ks).reverse.map (fun x => (x, inspect x))) ++ []).take 32
        = ks.reverse.map (fun x => (x, inspect x))
      rw [List.append_nil, List.reverse_cons, List.map_append,
          List.take_append_eq_append_take, hlen32]
      simp
      exact hks.le
    have hkmem := (List.nodup_cons.mp hnd).1
    have hkey : ∀ p ∈ (DetailsCache.run (DetailsCache.init β 32) inspect (k :: ks)).entries,
        p.1 ≠ k := by
      rw [hent']
      intro p hp
      obtain ⟨x, hx, rfl⟩ := List.mem_map.mp hp
      intro hc
      exact hkmem ((hc : x = k) ▸ (List.mem_reverse.mp hx))
    have hfind : (DetailsCache.run (DetailsCache.init β 32) inspect (k :: ks)).entries.find?
        (fun p => p.1 = k) = none := by
      rw [List.find?_eq_none]
      intro p hp
      simpa using hkey p hp
    refine ⟨hkey, ?_, ?_, ?_⟩
    · unfold DetailsCache.get
      rw [hfind]
    · unfold DetailsCache.get
      rw [hfind]
    · rw [hmiss]
      simp [DetailsCache.init]
      simpa using hlen
  · intro β inspect c k v h
    unfold DetailsCache.get
    rw [h]
    exact ⟨rfl, rfl, rfl⟩

/-- Witness for C5: the eviction statement applied to 33 concrete distinct
keys, and the hit statement applied to a concrete one-entry cache. -/
theorem C5_details_cache_lru_eviction_witness :
    (DetailsCache.run (DetailsCache.init ℕ 32) (fun _ => 0)
        (Nat.toDigits 10 0 :: (List.range 32).map (fun n => Nat.toDigits 10 (n + 1)))).misses
      = 33
    ∧ ((⟨32, [(['a'], 5)], 0, 0⟩ : DetailsCache ℕ).get (fun _ => 7) ['a']).1 = 5 :=
  ⟨(C5_details_cache_lru_eviction.1 ℕ (fun _ => 0) (Nat.toDigits 10 0)
      ((List.range 32).map (fun n => Nat.toDigits 10 (n + 1))) (by decide) (by decide)).2.2.2,
   (C5_details_cache_lru_eviction.2 ℕ (fun _ => 7) ⟨32, [(['a'], 5)], 0, 0⟩ ['a'] 5 rfl).1⟩

/-- Claim C6, code bug. Evaluating LRUCacheStatsCollector.collect: the
first call does return exactly four families, each carrying exactly one
sample with an empty label list, but because nothing ever clears the
samples the second call returns the same four families with two samples
each, contradicting the single-sample claim for repeated calls. -/

theorem C6_lru_collector_samples_accumulate :
    ((LRUCacheStatsCollector.collect LRUCacheStatsCollector.init ⟨0, 0, 32, 0⟩).2.length = 4)
    ∧ ((LRUCacheStatsCollector.collect LRUCacheStatsCollector.init ⟨0, 0, 32, 0⟩).2.map
        (fun f => f.samples.length) = [1, 1, 1, 1])
    ∧ ((LRUCacheStatsCollector.collect LRUCacheStatsCollector.init ⟨0, 0, 32, 0⟩).2.map
        (fun f => f.samples.map Prod.fst) = [[[]], [[]], [[]], [[]]])
    ∧ ((LRUCacheStatsCollector.collect
          (LRUCacheStatsCollector.collect LRUCacheStatsCollector.init ⟨0, 0, 32, 0⟩).1
          ⟨1, 2, 32, 3⟩).2.map (fun f => f.samples.length) = [2, 2, 2, 2]) :=
  ⟨rfl, rfl, rfl, rfl⟩

/-- Claim C7, confirmed. cleanup_samples keeps every family definition
(id, kind, description, label names) and key while emptying every sample
list; a collect cycle over no containers returns precisely the cleaned
families, all sample-free; and a repeated empty cycle returns the same
state and output again. -/

theorem C7_cleanup_keeps_definitions :
    (∀ r : Registry,
      (BaseStatsCollector.cleanup_samples r).map (fun p => (p.1, famDef p.2))
        = r.map (fun p => (p.1, famDef p.2))
      ∧ ∀ p ∈ BaseStatsCollector.cleanup_samples r, p.2.samples = [])
    ∧ (∀ (st : DockerState) (fetch : Str → Option StatsDoc),
      DockerStatsCollector.collect st [] fetch =
        .ok (DockerStatsCollector.cleanup_samples st,
             DockerStatsCollector.collected_metrics (DockerStatsCollector.cleanup_samples st))
      ∧ ∀ f ∈ DockerStatsCollector.collected_metrics (DockerStatsCollector.cleanup_samples st),
          f.samples = [])
    ∧ (∀ (st : DockerState) (fetch : Str → Option StatsDoc) (st1 : DockerState)
        (out1 : List MetricFamily),
      DockerStatsCollector.collect st [] fetch = .ok (st1, out1) →
      DockerStatsCollector.collect st1 [] fetch = .ok (st1, out1)) := by
  have key : ∀ (st : DockerState) (fetch : Str → Option StatsDoc),
      DockerStatsCollector.collect st [] fetch =
        .ok (DockerStatsCollector.cleanup_samples st,
             DockerStatsCollector.collected_metrics
               (DockerStatsCollector.cleanup_samples st)) := fun st fetch => rfl
  refine ⟨fun r => ⟨cleanup_samples_famDef r, cleanup_samples_empty r⟩, ?_, ?_⟩
  · intro st fetch
    refine ⟨key st fetch, ?_⟩
    intro f hf
    unfold DockerStatsCollector.collected_metrics DockerStatsCollector.cleanup_samples at hf
    simp only [List.mem_append, BaseStatsCollector.get_stats, List.mem_map] at hf
    rcases hf with (⟨p, hp, rfl⟩ | ⟨p, hp, rfl⟩) | ⟨p, hp, rfl⟩ <;>
      exact cleanup_samples_empty _ p hp
  · intro st fetch st1 out1 h
    rw [key st fetch] at h
    injection h with h2
    injection h2 with hst hout
    subst hst
    subst hout
    rw [key, docker_cleanup_idem]

/-- Witness for C7: the repeated-cycle statement applied to the initial
state with the first empty cycle discharged by computation. -/
theorem C7_cleanup_keeps_definitions_witness :
    DockerStatsCollector.collect
        (DockerStatsCollector.cleanup_samples DockerStatsCollector.init) [] (fun _ => none)
      = .ok (DockerStatsCollector.cleanup_samples DockerStatsCollector.init,
             DockerStatsCollector.collected_metrics
               (DockerStatsCollector.cleanup_samples DockerStatsCollector.init)) :=
  C7_cleanup_keeps_definitions.2.2 DockerStatsCollector.init (fun _ => none)
    (DockerStatsCollector.cleanup_samples DockerStatsCollector.init)
    (DockerStatsCollector.collected_metrics
      (DockerStatsCollector.cleanup_samples DockerStatsCollector.init)) rfl

/-- Claim C8, corrected. Registering a family under an id that is already
defined does not fail: add_stat performs a plain dict assignment, silently
replacing the existing family in place while keeping the dict size and the
other entries. -/

theorem C8_add_stat_silently_replaces :
    ∀ (r : Registry) (stat_id : String) (is_c : Bool) (stat_desc : String)
      (labels : List String),
      r.any (fun p => p.1 = stat_id) = true →
      BaseStatsCollector.add_stat r stat_id is_c stat_desc labels =
        r.map (fun p =>
          if p.1 = stat_id then (stat_id, ⟨stat_id, is_c, stat_desc, labels, []⟩) else p)
      ∧ (BaseStatsCollector.add_stat r stat_id is_c stat_desc labels).length = r.length := by
  intro r stat_id is_c stat_desc labels h
  unfold BaseStatsCollector.add_stat dictAssign
  rw [if_pos h]
  refine ⟨rfl, ?_⟩
  simp

/-- Witness for C8: replacing a one-entry registry in place. -/
theorem C8_add_stat_silently_replaces_witness :
    BaseStatsCollector.add_stat
        [("exporter_x_total", ⟨"exporter_x_total", true, "first", [], []⟩)]
        "exporter_x_total" false "second" [] =
      [("exporter_x_total", ⟨"exporter_x_total", true, "first", [], []⟩)].map (fun p =>
        if p.1 = "exporter_x_total" then
          ("exporter_x_total", ⟨"exporter_x_total", false, "second", [], []⟩) else p)
    ∧ (BaseStatsCollector.add_stat
        [("exporter_x_total", ⟨"exporter_x_total", true, "first", [], []⟩)]
        "exporter_x_total" false "second" []).length =
      [("exporter_x_total", (⟨"exporter_x_total", true, "first", [], []⟩ : MetricFamily))].length :=
  C8_add_stat_silently_replaces
    [("exporter_x_total", ⟨"exporter_x_total", true, "first", [], []⟩)]
    "exporter_x_total" false "second" [] (by decide)

/-- Counterexample for C8 as frozen: registering the same counter id twice
succeeds and yields the second definition instead of failing. -/

theorem C8_add_stat_counterexample :
    BaseStatsCollector.add_counter
        (BaseStatsCollector.add_counter [] "exporter_requests_total" "first registration" [])
        "exporter_requests_total" "second registration" []
      = [("exporter_requests_total",
          ⟨"exporter_requests_total", true, "second registration", [], []⟩)]
    ∧ BaseStatsCollector.add_counter [] "exporter_requests_total" "first registration" []
      = [("exporter_requests_total",
          ⟨"exporter_requests_total", true, "first registration", [], []⟩)]
    ∧ ("second registration" : String) ≠ "first registration" := by
  refine ⟨rfl, rfl, by decide⟩

/-- Claim C9, confirmed (threading modelled from the spec). In a cycle
with two schedulable containers where the fetch of the first fails or
times out and the fetch of the second returns a stats document, collect
still succeeds, the first container contributes no samples (the state is
exactly what the second container produced over the cleaned families), and
the second container contributes its samples. -/

theorem C9_fetch_failure_isolated :
    ∀ (st : DockerState) (fetch : Str → Option StatsDoc) (c1 c2 : ContainerInfo)
      (a1 t1 a2 t2 : Str) (stats : StatsDoc),
      resolve_identity c1.env = .ok (some (a1, t1)) →
      (truthy a1 && truthy t1) = true →
      resolve_identity c2.env = .ok (some (a2, t2)) →
      (truthy a2 && truthy t2) = true →
      fetch c1.cid = none →
      fetch c2.cid = some stats →
      DockerStatsCollector.collect st [c1, c2] fetch =
        .ok ((DockerStatsCollector.add_container
                (DockerStatsCollector.cleanup_samples st) a2 t2 stats).state,
             DockerStatsCollector.collected_metrics
               (DockerStatsCollector.add_container
                 (DockerStatsCollector.cleanup_samples st) a2 t2 stats).state) := by
  intro st fetch c1 c2 a1 t1 a2 t2 stats h1 hb1 h2 hb2 hf1 hf2
  have hs1 : schedule_step [] c1 = .ok [(a1, t1, c1.cid)] := by
    unfold schedule_step
    rw [h1, except_ok_bind]
    dsimp only
    rw [hb1]
    rfl
  have hs2 : schedule_step [(a1, t1, c1.cid)] c2 =
      .ok [(a1, t1, c1.cid), (a2, t2, c2.cid)] := by
    unfold schedule_step
    rw [h2, except_ok_bind]
    dsimp only
    rw [hb2]
    rfl
  have hfold : [c1, c2].foldlM schedule_step [] =
      .ok [(a1, t1, c1.cid), (a2, t2, c2.cid)] := by
    rw [List.foldlM_cons, hs1, except_ok_bind, List.foldlM_cons, hs2, except_ok_bind]
    rfl
  unfold DockerStatsCollector.collect
  rw [hfold, except_ok_bind]
  dsimp only [List.foldl_cons, List.foldl_nil]
  unfold run_thread
  dsimp only
  rw [hf1, hf2]
  rfl

/-- Witness for C9: two concrete containers where only the second fetch
returns a document. -/
theorem C9_fetch_failure_isolated_witness :
    DockerStatsCollector.collect DockerStatsCollector.init
        [⟨"aaa".toList, ["MESOS_TASK_ID=app1.task1".toList]⟩,
         ⟨"bbb".toList, ["MESOS_TASK_ID=app2.task2".toList]⟩]
        (fun cid => if cid = "bbb".toList then some exampleCpuStats else none) =
      .ok ((DockerStatsCollector.add_container
              (DockerStatsCollector.cleanup_samples DockerStatsCollector.init)
              "app2".toList "task2".toList exampleCpuStats).state,
           DockerStatsCollector.collected_metrics
             (DockerStatsCollector.add_container
               (DockerStatsCollector.cleanup_samples DockerStatsCollector.init)
               "app2".toList "task2".toList exampleCpuStats).state) :=
  C9_fetch_failure_isolated DockerStatsCollector.init
    (fun cid => if cid = "bbb".toList then some exampleCpuStats else none)
    ⟨"aaa".toList, ["MESOS_TASK_ID=app1.task1".toList]⟩
    ⟨"bbb".toList, ["MESOS_TASK_ID=app2.task2".toList]⟩
    "app1".toList "task1".toList "app2".toList "task2".toList exampleCpuStats
    rfl (by decide) rfl (by decide) rfl rfl

/-- Claim C10, confirmed. A container whose MESOS_TASK_ID value parses to
an empty appid or an empty taskid is silently excluded: the cycle computed
with that container anywhere in the list equals the cycle computed without
it, and the example values .abc and app. indeed parse to an empty appid
and an empty taskid respectively. -/

theorem C10_empty_identity_excluded :
    (∀ (st : DockerState) (fetch : Str → Option StatsDoc)
        (pre post : List ContainerInfo) (cid : Str) (env : List Str)
        (appid taskid : Str),
      resolve_identity env = .ok (some (appid, taskid)) →
      appid = [] ∨ taskid = [] →
      DockerStatsCollector.collect st (pre ++ ⟨cid, env⟩ :: post) fetch =
        DockerStatsCollector.collect st (pre ++ post) fetch)
    ∧ resolve_identity ["MESOS_TASK_ID=.abc".toList] = .ok (some ([], "abc".toList))
    ∧ resolve_identity ["MESOS_TASK_ID=app.".toList] = .ok (some ("app".toList, [])) := by
  refine ⟨?_, rfl, rfl⟩
  intro st fetch pre post cid env appid taskid h hempty
  unfold DockerStatsCollector.collect
  rw [foldlM_schedule_middle pre post ⟨cid, env⟩ (schedule_step_skip ⟨cid, env⟩ appid taskid h hempty)]

/-- Witness for C10: excluding a concrete container whose value is .abc
from a singleton cycle. -/
theorem C10_empty_identity_excluded_witness :
    DockerStatsCollector.collect DockerStatsCollector.init
        ([] ++ ⟨"cid1".toList, ["MESOS_TASK_ID=.abc".toList]⟩ :: []) (fun _ => none)
      = DockerStatsCollector.collect DockerStatsCollector.init ([] ++ []) (fun _ => none) :=
  C10_empty_identity_excluded.1 DockerStatsCollector.init (fun _ => none) [] []
    "cid1".toList ["MESOS_TASK_ID=.abc".toList] [] "abc".toList rfl (Or.inl rfl)
